import Mathlib

/-!
Shallow embedding of the search core of src/src/lib.rs (the RipGrep pyclass):
pattern validation (RipGrep::new), single-file scanning (search_file_impl via
grep_searcher with the strict sinks::UTF8 sink), directory walking
(search_directory_impl via the ignore crate's WalkBuilder) and the top-level
search entry point (RipGrep::search).

Machine-level conventions of the embedding:
- file contents are byte lists (List Nat, each element below 256);
- the external grep_regex crate is modelled for literal patterns: a pattern
  matches a line when its UTF-8 bytes occur as a contiguous subsequence of
  the line's bytes, and syntactic validity is modelled as balanced
  parentheses, classes and escapes (the claims quantify over patterns or use
  literal ones, so this granularity decides them);
- the external ignore crate's walker is modelled as a recursive traversal
  that skips hidden names and names matched by the ignore rules in force,
  yields every surviving entry, and yields an error item for an unreadable
  directory;
- Python-visible errors are the PyErr type (PyValueError / PyIOError);
- the instrumented SearchOutcome records, besides the Python-visible return
  value, the list of files the search opened and the messages the code
  printed to stderr via eprintln, so that claims about side channels and
  about the absence of filesystem access are statable.
-/

/-- Whether a byte is a UTF-8 continuation byte (10xxxxxx). -/
def isContByte (b : Nat) : Bool := 128 ≤ b && b < 192

/-- Decode one UTF-8 scalar value from the front of a byte list, returning the
scalar and the remaining bytes; none on any malformed sequence (bad lead byte,
truncated sequence, bad continuation byte, overlong form, surrogate, or value
above 0x10FFFF).  This models the strict validation done by Rust
str::from_utf8, which the grep_searcher sinks::UTF8 sink applies to every
matched line. -/
def utf8DecodeOne : List Nat → Option (Nat × List Nat)
  | [] => none
  | b1 :: bs =>
    if b1 < 128 then some (b1, bs)
    else if b1 < 194 then none
    else if b1 < 224 then
      match bs with
      | b2 :: bs2 => if isContByte b2 then some ((b1 - 192) * 64 + (b2 - 128), bs2) else none
      | [] => none
    else if b1 < 240 then
      match bs with
      | b2 :: b3 :: bs3 =>
        if isContByte b2 && isContByte b3 then
          let c := (b1 - 224) * 4096 + (b2 - 128) * 64 + (b3 - 128)
          if c < 2048 || (55296 ≤ c && c < 57344) then none else some (c, bs3)
        else none
      | _ => none
    else if b1 < 245 then
      match bs with
      | b2 :: b3 :: b4 :: bs4 =>
        if isContByte b2 && isContByte b3 && isContByte b4 then
          let c := (b1 - 240) * 262144 + (b2 - 128) * 4096 + (b3 - 128) * 64 + (b4 - 128)
          if c < 65536 || 1114111 < c then none else some (c, bs4)
        else none
      | _ => none
    else none

/-- Fuel-driven loop decoding a whole byte list as UTF-8.  The fuel only makes
the recursion structural; utf8Decode supplies fuel equal to the list length,
which is enough because every step consumes at least one byte. -/
def utf8DecodeGo : Nat → List Nat → Option (List Char)
  | _, [] => some []
  | 0, _ :: _ => none
  | fuel + 1, bs =>
    match utf8DecodeOne bs with
    | none => none
    | some (c, rest) =>
      match utf8DecodeGo fuel rest with
      | none => none
      | some cs => some (Char.ofNat c :: cs)

/-- Decode a byte list as UTF-8 text, none if malformed anywhere. -/
def utf8Decode (l : List Nat) : Option (List Char) := utf8DecodeGo l.length l

/-- UTF-8 encoding of one Unicode scalar value. -/
def encodeCharUtf8 (n : Nat) : List Nat :=
  if n < 128 then [n]
  else if n < 2048 then [192 + n / 64, 128 + n % 64]
  else if n < 65536 then [224 + n / 4096, 128 + (n / 64) % 64, 128 + n % 64]
  else [240 + n / 262144, 128 + (n / 4096) % 64, 128 + (n / 64) % 64, 128 + n % 64]

/-- UTF-8 byte representation of a Lean string, used to move between the
string world of patterns and the byte world of file contents. -/
def strBytes (s : String) : List Nat := (s.data.map (fun c => encodeCharUtf8 c.toNat)).flatten

/-- Whitespace characters removed by Rust str::trim_end (ASCII part: space,
tab, newline, carriage return, vertical tab, form feed). -/
def isTrailWs (c : Char) : Bool :=
  c = ' ' || c = '\t' || c = '\n' || c = '\r' || c.toNat = 11 || c.toNat = 12

/-- Model of Rust str::trim_end as applied at lib.rs line 62: removes every
trailing whitespace character, not only the line terminator. -/
def trimEnd (s : String) : String := String.mk ((s.data.reverse.dropWhile isTrailWs).reverse)

/-- Scanner for the regex syntax check, tracking paren depth and whether the
scan is inside a character class.  A backslash escapes the next character.
Modelled from the external grep_regex crate: the model rejects exactly the
strings with unbalanced groups, unclosed classes or a dangling escape. -/
def regexScan : List Char → Nat → Bool → Bool
  | [], d, inCl => !inCl && d == 0
  | c :: cs, d, inCl =>
    if c = '\\' then
      match cs with
      | [] => false
      | _ :: cs2 => regexScan cs2 d inCl
    else if inCl then
      if c = ']' then regexScan cs d false else regexScan cs d true
    else if c = '[' then regexScan cs d true
    else if c = '(' then regexScan cs (d + 1) false
    else if c = ')' then
      match d with
      | 0 => false
      | e + 1 => regexScan cs e false
    else regexScan cs d false

/-- Syntactic validity of a pattern string (model of whether
grep_regex::RegexMatcher::new succeeds). -/
def regexSyntaxOk (p : String) : Bool := regexScan p.data 0 false

/-- Whether the first list occurs at the head of the second. -/
def startsWithSeq : List Nat → List Nat → Bool
  | [], _ => true
  | _ :: _, [] => false
  | a :: as, b :: bs => (a == b) && startsWithSeq as bs

/-- Whether the first list occurs contiguously anywhere inside the second. -/
def containsSeq (needle : List Nat) : List Nat → Bool
  | [] => needle.isEmpty
  | b :: bs => startsWithSeq needle (b :: bs) || containsSeq needle bs

/-- Compiled matcher handle produced by the (modelled) grep_regex crate; it
retains the UTF-8 bytes of the source pattern. -/
structure RegexMatcher where
  pat : List Nat
deriving DecidableEq, Repr

/-- Python-visible error values raised by the binding layer. -/
inductive PyErr where
  | valueError (msg : String)
  | ioError (msg : String)
deriving DecidableEq, Repr

/-- Message carried by a PyErr. -/
def PyErr.msg : PyErr → String
  | PyErr.valueError s => s
  | PyErr.ioError s => s

/-- Model of grep_regex::RegexMatcher::new: validates the pattern and returns
a matcher, or the error that lib.rs maps to PyValueError with the
Invalid regex prefix (lib.rs lines 21 to 22 and 29 to 30). -/
def RegexMatcher.new (p : String) : Except PyErr RegexMatcher :=
  if regexSyntaxOk p then Except.ok { pat := strBytes p }
  else Except.error (PyErr.valueError ("Invalid regex: " ++ p))

/-- Matcher semantics for literal patterns: the pattern bytes occur in the
line bytes.  The searcher hands whole lines (terminator included) to the
matcher. -/
def RegexMatcher.isMatch (m : RegexMatcher) (line : List Nat) : Bool := containsSeq m.pat line

/-- One entry of the Python result list built at lib.rs lines 58 to 65: a dict
with keys file, line_number and line. -/
structure MatchRecord where
  file : String
  line_number : Nat
  line : String
deriving DecidableEq, Repr

/-- Accumulator-style splitter mirroring how grep_searcher slices the input at
newline bytes: every line keeps its trailing 0x0A, a final fragment without a
terminator is kept, and an empty input has no lines. -/
def splitLinesGo : List Nat → List Nat → List (List Nat)
  | [], acc => match acc with | [] => [] | _ :: _ => [acc.reverse]
  | b :: bs, acc => if b == 10 then (acc.reverse ++ [10]) :: splitLinesGo bs [] else splitLinesGo bs (b :: acc)

/-- Split a file's bytes into its lines, terminators included. -/
def splitLines (content : List Nat) : List (List Nat) := splitLinesGo content []

/-- Message of the error the sinks::UTF8 sink produces when a matched line is
not valid UTF-8, already mapped to the Search error prefix of lib.rs line 55. -/
def utf8ErrMsg (path : String) : String := "Search error: invalid UTF-8 in " ++ path

/-- Loop of search_file_impl (lib.rs lines 46 to 68): lines are numbered from
n upward; each matching line is decoded strictly as UTF-8 by the sinks::UTF8
sink (an invalid matched line aborts the whole file scan with an error, so no
record of the file survives), and each surviving record stores the trim_end
of the decoded line. -/
def scanLines (m : RegexMatcher) (path : String) : Nat → List (List Nat) → Except PyErr (List MatchRecord)
  | _, [] => Except.ok []
  | n, l :: ls =>
    if m.isMatch l then
      match utf8Decode l with
      | none => Except.error (PyErr.ioError (utf8ErrMsg path))
      | some cs =>
        Except.map (fun recs => { file := path, line_number := n, line := trimEnd (String.mk cs) } :: recs)
          (scanLines m path (n + 1) ls)
    else scanLines m path (n + 1) ls

/-- Model of RipGrep::search_file_impl (lib.rs lines 45 to 69): opening an
unreadable file makes searcher.search_path fail, mapped to PyIOError with the
Search error prefix; otherwise the file's lines are scanned from line 1. -/
def searchFileImpl (m : RegexMatcher) (path : String) (readable : Bool) (content : List Nat) :
    Except PyErr (List MatchRecord) :=
  if readable then scanLines m path 1 (splitLines content)
  else Except.error (PyErr.ioError ("Search error: failed to open " ++ path))

/-- Filesystem node: a regular file (with a readability flag and byte
content), a directory (readability flag, the ignore rules its ignore file
contributes, and named children in yield order), or a special file that is
neither. -/
inductive FSTree where
  | file (readable : Bool) (content : List Nat) : FSTree
  | dir (readable : Bool) (rules : List String) (entries : List (String × FSTree)) : FSTree
  | other : FSTree

/-- Whether a name is hidden (leading dot); the ignore walker skips hidden
entries by default. -/
def hiddenName (s : String) : Bool :=
  match s.data with
  | [] => false
  | c :: _ => c = '.'

/-- Whether one ignore rule matches a file name: a rule starting with a star
matches any name with the given suffix, any other rule matches the exact
name.  Modelled from the ignore crate's glob handling at the granularity the
claims use. -/
def ruleMatchesName (rule name : String) : Bool :=
  match rule.data with
  | '*' :: suf => startsWithSeq (suf.reverse.map Char.toNat) (name.data.reverse.map Char.toNat)
  | _ => if rule = name then true else false

/-- Whether any rule in force matches the name. -/
def ignoredName (rules : List String) (name : String) : Bool :=
  rules.any (fun r => ruleMatchesName r name)

mutual
/-- Recursive part of the modelled ignore walker: what a node contributes
after having itself been yielded.  A readable directory walks its children
with its own ignore rules added; an unreadable directory contributes a walk
error item; files and special nodes contribute nothing further. -/
def walkTree (rules : List String) (p : String) : FSTree → List (Except String (String × FSTree))
  | FSTree.dir true rules2 es => walkList (rules ++ rules2) p es
  | FSTree.dir false _ _ => [Except.error p]
  | _ => []

/-- Walk a directory's children in order: hidden names and names matched by a
rule in force are skipped entirely (not yielded, not entered); every other
child is yielded and then, if a directory, entered. -/
def walkList (rules : List String) (path : String) : List (String × FSTree) → List (Except String (String × FSTree))
  | [] => []
  | (name, t) :: rest =>
    if hiddenName name || ignoredName rules name then walkList rules path rest
    else
      (Except.ok (path ++ "/" ++ name, t) :: walkTree rules (path ++ "/" ++ name) t)
        ++ walkList rules path rest
end

/-- Model of WalkBuilder::new(path).build() (lib.rs lines 72 to 73): the walk
yields the root itself first (never filtered), then the recursive traversal;
error items carry the path the walker could not read. -/
def walk (path : String) (t : FSTree) : List (Except String (String × FSTree)) :=
  Except.ok (path, t) :: walkTree [] path t

instance instDecEqExcept {ε α : Type} [DecidableEq ε] [DecidableEq α] : DecidableEq (Except ε α) := fun x y =>
  match x, y with
  | Except.error a, Except.error b =>
    if h : a = b then isTrue (congrArg Except.error h)
    else isFalse (fun hc => h (Except.error.inj hc))
  | Except.ok a, Except.ok b =>
    if h : a = b then isTrue (congrArg Except.ok h)
    else isFalse (fun hc => h (Except.ok.inj hc))
  | Except.error _, Except.ok _ => isFalse (fun hc => Except.noConfusion hc)
  | Except.ok _, Except.error _ => isFalse (fun hc => Except.noConfusion hc)

/-- Whether an Except value is an ok value. -/
def exceptIsOk {ε α : Type} : Except ε α → Bool
  | Except.ok _ => true
  | Except.error _ => false

/-- Instrumented observation of one search call: the Python-visible return
value, the file paths the search tried to open, and the lines written to
stderr by the eprintln at lib.rs line 81. -/
structure SearchOutcome where
  result : Except PyErr (List MatchRecord)
  accessed : List String
  errlog : List String
deriving DecidableEq, Repr

/-- Loop body of search_directory_impl (lib.rs lines 75 to 84): a walk error
item is propagated immediately by the question mark operator (mapped to
PyIOError with the Walk error prefix), so the Python list built so far is
never returned; a yielded regular file is scanned, its failure being written
to stderr and skipped; non-file entries are passed over. -/
def searchEntries (m : RegexMatcher) : List (Except String (String × FSTree)) → SearchOutcome
  | [] => { result := Except.ok [], accessed := [], errlog := [] }
  | Except.error e :: _ =>
    { result := Except.error (PyErr.ioError ("Walk error: " ++ e)), accessed := [], errlog := [] }
  | Except.ok (p, FSTree.file rd content) :: rest =>
    let r := searchEntries m rest
    match searchFileImpl m p rd content with
    | Except.ok recs =>
      { result := Except.map (fun l => recs ++ l) r.result, accessed := p :: r.accessed, errlog := r.errlog }
    | Except.error e =>
      { result := r.result, accessed := p :: r.accessed,
        errlog := ("Error searching " ++ p ++ ": " ++ PyErr.msg e) :: r.errlog }
  | Except.ok _ :: rest => searchEntries m rest

/-- Model of RipGrep::search_directory_impl (lib.rs lines 71 to 86). -/
def searchDirectoryImpl (m : RegexMatcher) (path : String) (t : FSTree) : SearchOutcome :=
  searchEntries m (walk path t)

/-- The RipGrep pyclass: it stores only the raw pattern string. -/
structure RipGrep where
  pattern : String
deriving DecidableEq, Repr

/-- Model of RipGrep::new (lib.rs lines 19 to 25): the pattern is validated
immediately and the constructor fails with PyValueError on an invalid one; no
path is involved at all. -/
def RipGrep.new (pattern : String) : Except PyErr RipGrep :=
  Except.map (fun _ => { pattern := pattern }) (RegexMatcher.new pattern)

/-- Model of RipGrep::search (lib.rs lines 27 to 41).  The node argument is
what the operating system resolves the path argument to: an existing regular
file, an existing directory, an existing special file (FSTree.other), or
nothing (none).  The matcher is rebuilt from the stored pattern before the
path is even examined; a target that is neither a file nor a directory
leaves the result list empty. -/
def RipGrep.search (rg : RipGrep) (path : String) (node : Option FSTree) : SearchOutcome :=
  match RegexMatcher.new rg.pattern with
  | Except.error e => { result := Except.error e, accessed := [], errlog := [] }
  | Except.ok m =>
    match node with
    | some (FSTree.file rd content) =>
      match searchFileImpl m path rd content with
      | Except.ok recs => { result := Except.ok recs, accessed := [path], errlog := [] }
      | Except.error e => { result := Except.error e, accessed := [path], errlog := [] }
    | some (FSTree.dir rd rules es) => searchDirectoryImpl m path (FSTree.dir rd rules es)
    | some FSTree.other => { result := Except.ok [], accessed := [], errlog := [] }
    | none => { result := Except.ok [], accessed := [], errlog := [] }

/-! Helper lemmas shared by several claim theorems. -/

lemma except_map_eq_error {ε α β : Type} (f : α → β) (x : Except ε α) (e : ε) :
    Except.map f x = Except.error e ↔ x = Except.error e := by
  cases x <;> simp [Except.map]

lemma scanLines_error_iff (m : RegexMatcher) (path : String) (ls : List (List Nat)) :
    ∀ n : Nat,
      (scanLines m path n ls = Except.error (PyErr.ioError (utf8ErrMsg path))
        ↔ ∃ l ∈ ls, m.isMatch l = true ∧ utf8Decode l = none) := by
  induction ls with
  | nil => intro n; simp [scanLines]
  | cons l ls ih =>
    intro n
    by_cases hm : m.isMatch l = true
    · cases hd : utf8Decode l with
      | none => simp [scanLines, hm, hd]
      | some cs => simp [scanLines, hm, hd, except_map_eq_error, ih (n + 1)]
    · have hm2 : m.isMatch l = false := by revert hm; cases m.isMatch l <;> simp
      simp [scanLines, hm2, ih (n + 1)]

lemma scanLines_ok_form (m : RegexMatcher) (path : String) (ls : List (List Nat)) :
    ∀ n : Nat,
      (∀ l ∈ ls, m.isMatch l = true → (utf8Decode l).isSome = true) →
      scanLines m path n ls = Except.ok
        (((ls.enumFrom n).filter (fun q => m.isMatch q.2)).map
          (fun q => { file := path, line_number := q.1, line := trimEnd (String.mk ((utf8Decode q.2).getD [])) })) := by
  induction ls with
  | nil => intro n _; simp [scanLines, List.enumFrom]
  | cons l ls ih =>
    intro n h
    have hrest : ∀ x ∈ ls, m.isMatch x = true → (utf8Decode x).isSome = true :=
      fun x hx => h x (List.mem_cons_of_mem l hx)
    by_cases hm : m.isMatch l = true
    · cases hd : utf8Decode l with
      | none =>
        exfalso
        have := h l (List.mem_cons_self l ls) hm
        rw [hd] at this
        simp at this
      | some cs =>
        simp [scanLines, hm, hd, ih (n + 1) hrest, List.enumFrom, List.filter_cons, Except.map]
    · have hm2 : m.isMatch l = false := by revert hm; cases m.isMatch l <;> simp
      simp [scanLines, hm2, ih (n + 1) hrest, List.enumFrom, List.filter_cons]

lemma enumFrom_filter_length {α : Type} (f : α → Bool) (ls : List α) :
    ∀ n : Nat, ((ls.enumFrom n).filter (fun q => f q.2)).length = (ls.filter f).length := by
  induction ls with
  | nil => intro n; simp [List.enumFrom]
  | cons l ls ih =>
    intro n
    by_cases h : f l = true <;>
      simp [List.enumFrom, List.filter_cons, h, ih (n + 1)]

lemma enumFrom_filter_map_snd {α β : Type} (f : α → Bool) (g : α → β) (ls : List α) :
    ∀ n : Nat,
      ((ls.enumFrom n).filter (fun q => f q.2)).map (fun q => g q.2) = (ls.filter f).map g := by
  induction ls with
  | nil => intro n; simp [List.enumFrom]
  | cons l ls ih =>
    intro n
    by_cases h : f l = true <;>
      simp [List.enumFrom, List.filter_cons, h, ih (n + 1)]

lemma le_fst_of_mem_enumFrom {α : Type} (ls : List α) :
    ∀ (n : Nat) (q : Nat × α), q ∈ ls.enumFrom n → n ≤ q.1 := by
  induction ls with
  | nil => intro n q hq; simp [List.enumFrom] at hq
  | cons l ls ih =>
    intro n q hq
    simp only [List.enumFrom] at hq
    cases hq with
    | head => exact Nat.le_refl n
    | tail _ hmem => exact Nat.le_trans (Nat.le_succ n) (ih (n + 1) q hmem)

lemma pairwise_lt_enumFrom {α : Type} (ls : List α) :
    ∀ n : Nat, (ls.enumFrom n).Pairwise (fun a b => a.1 < b.1) := by
  induction ls with
  | nil => intro n; simp [List.enumFrom]
  | cons l ls ih =>
    intro n
    simp only [List.enumFrom]
    exact List.Pairwise.cons
      (fun q hq => Nat.lt_of_lt_of_le (Nat.lt_succ_self n) (le_fst_of_mem_enumFrom ls (n + 1) q hq))
      (ih (n + 1))

/-! Claim theorems. -/

/-- C1: for every syntactically invalid pattern string, constructing the
searcher fails immediately with the invalid-pattern PyValueError, and even a
direct search call with such a pattern stored fails with the same error
before any filesystem access (the accessed list of the outcome is empty for
every target). -/
theorem invalid_pattern_fails_before_io (p : String) (h : regexSyntaxOk p = false) :
    RipGrep.new p = Except.error (PyErr.valueError ("Invalid regex: " ++ p)) ∧
    ∀ (path : String) (node : Option FSTree),
      (RipGrep.search { pattern := p } path node).result
          = Except.error (PyErr.valueError ("Invalid regex: " ++ p)) ∧
      (RipGrep.search { pattern := p } path node).accessed = [] := by
  constructor
  · simp [RipGrep.new, RegexMatcher.new, h, Except.map]
  · intro path node
    constructor <;> simp [RipGrep.search, RegexMatcher.new, h]

/-- Witness for C1 at the concrete invalid pattern consisting of one opening
parenthesis. -/
theorem invalid_pattern_fails_before_io_witness :
    RipGrep.new "(" = Except.error (PyErr.valueError ("Invalid regex: " ++ "(")) ∧
    (RipGrep.search { pattern := "(" } "d" (some (FSTree.file true [104]))).result
        = Except.error (PyErr.valueError ("Invalid regex: " ++ "(")) ∧
    (RipGrep.search { pattern := "(" } "d" (some (FSTree.file true [104]))).accessed = [] :=
  ⟨(invalid_pattern_fails_before_io "(" (by decide)).1,
   (invalid_pattern_fails_before_io "(" (by decide)).2 "d" (some (FSTree.file true [104]))⟩

/-- C5, counterexample: decoding is not lenient.  The single-line file whose
bytes are the word hi followed by the invalid byte 255 and a newline has its
one line matched by the pattern hi, yet the scan aborts with an IO error and
reports no match at all, contradicting the claim that invalid sequences are
replaced and the matching lines still reported. -/
theorem invalid_utf8_aborts_scan_cex :
    (RipGrep.search { pattern := "hi" } "f" (some (FSTree.file true (strBytes "hi" ++ [255, 10])))).result
      = Except.error (PyErr.ioError (utf8ErrMsg "f")) ∧
    RegexMatcher.isMatch { pat := strBytes "hi" } (strBytes "hi" ++ [255, 10]) = true := by
  constructor <;> decide

/-- C5 (amended): non-UTF8 bytes are decoded strictly, not leniently.  A
readable file's scan fails with the UTF-8 IO error exactly when some line of
the file both matches the pattern and is not valid UTF-8; in particular a
matched malformed line always aborts the file's scan, and malformed bytes
confined to non-matching lines never do. -/
theorem strict_utf8_error_iff (m : RegexMatcher) (path : String) (content : List Nat) :
    searchFileImpl m path true content = Except.error (PyErr.ioError (utf8ErrMsg path))
      ↔ ∃ l ∈ splitLines content, m.isMatch l = true ∧ utf8Decode l = none := by
  simpa [searchFileImpl] using scanLines_error_iff m path (splitLines content) 1

/-- C9: if construction of the searcher succeeds then re-compiling the stored
immutable pattern string, as the search method does on every call, succeeds
as well: the invalid-regex error branch inside search is unreachable after a
successful construction. -/
theorem stored_pattern_always_recompiles (p : String) (rg : RipGrep)
    (h : RipGrep.new p = Except.ok rg) :
    RegexMatcher.new rg.pattern = Except.ok { pat := strBytes rg.pattern } := by
  unfold RipGrep.new at h
  cases hok : regexSyntaxOk p with
  | false =>
    rw [RegexMatcher.new, hok] at h
    simp [Except.map] at h
  | true =>
    rw [RegexMatcher.new, hok] at h
    simp [Except.map] at h
    rw [← h]
    simp [RegexMatcher.new, hok]

/-- Witness for C9 at the concrete pattern a. -/
theorem stored_pattern_always_recompiles_witness :
    RegexMatcher.new (RipGrep.pattern { pattern := "a" })
      = Except.ok { pat := strBytes (RipGrep.pattern { pattern := "a" }) } :=
  stored_pattern_always_recompiles "a" { pattern := "a" } (by decide)

/-- C10: with a valid pattern, a target path that resolves neither to an
existing regular file nor to an existing directory (a missing path, or a
special file) produces the empty result list with no error, no file access
and no stderr output. -/
theorem missing_target_empty_result (rg : RipGrep) (path : String)
    (hp : regexSyntaxOk rg.pattern = true) :
    rg.search path none = { result := Except.ok [], accessed := [], errlog := [] } ∧
    rg.search path (some FSTree.other) = { result := Except.ok [], accessed := [], errlog := [] } := by
  constructor <;> simp [RipGrep.search, RegexMatcher.new, hp]

/-- Witness for C10 at the concrete pattern a and target path nope. -/
theorem missing_target_empty_result_witness :
    RipGrep.search { pattern := "a" } "nope" none
        = { result := Except.ok [], accessed := [], errlog := [] } ∧
    RipGrep.search { pattern := "a" } "nope" (some FSTree.other)
        = { result := Except.ok [], accessed := [], errlog := [] } :=
  missing_target_empty_result { pattern := "a" } "nope" (by decide)

/-- C2, counterexample: the claim quantifies over every readable file, but a
file whose single line matches the pattern while containing an invalid UTF-8
byte makes search raise an IO error instead of returning the one record the
claim requires. -/
theorem utf8_matching_line_breaks_count_cex :
    ((splitLines (strBytes "ERROR" ++ [255, 10])).filter
        (fun l => RegexMatcher.isMatch { pat := strBytes "ERROR" } l)).length = 1 ∧
    (RipGrep.search { pattern := "ERROR" } "f"
        (some (FSTree.file true (strBytes "ERROR" ++ [255, 10])))).result
      = Except.error (PyErr.ioError (utf8ErrMsg "f")) := by
  constructor <;> decide

/-- C2 (amended): for every valid pattern and readable file all of whose
matching lines are valid UTF-8, search on the file returns exactly one record
per matching line, with line numbers equal to the 1-based position of the
line in the file and in strictly ascending order. -/
theorem file_search_returns_numbered_matches (p path : String) (content : List Nat)
    (hp : regexSyntaxOk p = true)
    (hdec : ∀ l ∈ splitLines content,
      RegexMatcher.isMatch { pat := strBytes p } l = true → (utf8Decode l).isSome = true) :
    ∃ recs,
      (RipGrep.search { pattern := p } path (some (FSTree.file true content))).result = Except.ok recs ∧
      recs.length
          = ((splitLines content).filter (fun l => RegexMatcher.isMatch { pat := strBytes p } l)).length ∧
      recs.map (fun r => r.line_number)
          = (((splitLines content).enumFrom 1).filter
              (fun q => RegexMatcher.isMatch { pat := strBytes p } q.2)).map (fun q => q.1) ∧
      List.Pairwise (fun a b => a < b) (recs.map (fun r => r.line_number)) := by
  have hsf := scanLines_ok_form { pat := strBytes p } path (splitLines content) 1 hdec
  refine ⟨((List.enumFrom 1 (splitLines content)).filter
      (fun q => RegexMatcher.isMatch { pat := strBytes p } q.2)).map
      (fun q => { file := path, line_number := q.1,
                  line := trimEnd (String.mk ((utf8Decode q.2).getD [])) }), ?_, ?_, ?_, ?_⟩
  · simp [RipGrep.search, RegexMatcher.new, hp, searchFileImpl, hsf]
  · rw [List.length_map]
    exact enumFrom_filter_length _ (splitLines content) 1
  · rw [List.map_map]
    rfl
  · rw [List.map_map]
    have h1 := pairwise_lt_enumFrom (splitLines content) 1
    have h2 := List.Pairwise.sublist
      (@List.filter_sublist _ (fun q => RegexMatcher.isMatch { pat := strBytes p } q.2)
        (List.enumFrom 1 (splitLines content))) h1
    exact List.pairwise_map.mpr h2

/-- Witness for C2 at a concrete two-match file. -/
theorem file_search_returns_numbered_matches_witness :
    ∃ recs,
      (RipGrep.search { pattern := "ERROR" } "f"
          (some (FSTree.file true (strBytes "a\nERROR b\nc\nERROR d\n")))).result = Except.ok recs ∧
      recs.length
          = ((splitLines (strBytes "a\nERROR b\nc\nERROR d\n")).filter
              (fun l => RegexMatcher.isMatch { pat := strBytes "ERROR" } l)).length ∧
      recs.map (fun r => r.line_number)
          = (((splitLines (strBytes "a\nERROR b\nc\nERROR d\n")).enumFrom 1).filter
              (fun q => RegexMatcher.isMatch { pat := strBytes "ERROR" } q.2)).map (fun q => q.1) ∧
      List.Pairwise (fun a b => a < b) (recs.map (fun r => r.line_number)) :=
  file_search_returns_numbered_matches "ERROR" "f" (strBytes "a\nERROR b\nc\nERROR d\n")
    (by decide) (by decide)

/-- C7, counterexample: the stored line content is not the line with only its
terminator removed.  A matching line ending in two spaces before the newline
is stored as the word ERROR alone: the spaces are stripped as well. -/
theorem trailing_spaces_stripped_cex :
    (RipGrep.search { pattern := "ERROR" } "f"
        (some (FSTree.file true (strBytes "ERROR  \n")))).result
      = Except.ok [{ file := "f", line_number := 1, line := "ERROR" }] ∧
    ("ERROR" : String) ≠ "ERROR  " := by
  constructor <;> decide

/-- C7 (amended): every stored line content is the decoded matching line with
all of its trailing whitespace removed (spaces and tabs included, not only
the line terminator), because the code applies trim_end to the whole line. -/
theorem all_trailing_whitespace_stripped (m : RegexMatcher) (path : String) (content : List Nat)
    (hdec : ∀ l ∈ splitLines content, m.isMatch l = true → (utf8Decode l).isSome = true) :
    ∃ recs, searchFileImpl m path true content = Except.ok recs ∧
      recs.map (fun r => r.line)
          = ((splitLines content).filter (fun l => m.isMatch l)).map
              (fun l => trimEnd (String.mk ((utf8Decode l).getD []))) := by
  have hsf := scanLines_ok_form m path (splitLines content) 1 hdec
  refine ⟨((List.enumFrom 1 (splitLines content)).filter (fun q => m.isMatch q.2)).map
      (fun q => { file := path, line_number := q.1,
                  line := trimEnd (String.mk ((utf8Decode q.2).getD [])) }),
    by simp [searchFileImpl, hsf], ?_⟩
  rw [List.map_map]
  exact enumFrom_filter_map_snd (fun l => m.isMatch l)
    (fun l => trimEnd (String.mk ((utf8Decode l).getD []))) (splitLines content) 1

/-- Witness for C7 at a concrete file whose matching line ends in spaces. -/
theorem all_trailing_whitespace_stripped_witness :
    ∃ recs, searchFileImpl { pat := strBytes "hit" } "f" true (strBytes "hit  \n") = Except.ok recs ∧
      recs.map (fun r => r.line)
          = ((splitLines (strBytes "hit  \n")).filter
              (fun l => RegexMatcher.isMatch { pat := strBytes "hit" } l)).map
              (fun l => trimEnd (String.mk ((utf8Decode l).getD []))) :=
  all_trailing_whitespace_stripped { pat := strBytes "hit" } "f" (strBytes "hit  \n") (by decide)

/-- C3, counterexample: with one readable matching file and one unreadable
file in the directory, the value returned to the caller is only the list of
match records; the skipped path and its reason appear exclusively in the
stderr log, so the claim that a structured warnings list is part of the
returned value is false. -/
theorem warnings_only_on_stderr_cex :
    RipGrep.search { pattern := "hit" } "d"
        (some (FSTree.dir true []
          [("a.txt", FSTree.file true (strBytes "hit\n")),
           ("c.txt", FSTree.file false (strBytes "hit\n"))]))
      = { result := Except.ok [{ file := "d/a.txt", line_number := 1, line := "hit" }],
          accessed := ["d/a.txt", "d/c.txt"],
          errlog := ["Error searching d/c.txt: Search error: failed to open d/c.txt"] } := by
  decide

/-- C3 (amended): per-file scan failures do not abort a directory search and
the partial match results are returned, but the failures are reported only
through the stderr side channel (log and continue): the Python-visible value
is exactly the concatenated records of the files that scanned successfully,
and the skipped paths with their reasons make up the stderr log, not any part
of the returned value. -/
theorem per_file_errors_logged_not_returned (m : RegexMatcher)
    (entries : List (Except String (String × FSTree)))
    (h : ∀ x ∈ entries, exceptIsOk x = true) :
    (searchEntries m entries).result
        = Except.ok ((entries.filterMap (fun x =>
            match x with
            | Except.ok (p, FSTree.file rd c) => (searchFileImpl m p rd c).toOption
            | _ => none)).flatten) ∧
    (searchEntries m entries).errlog
        = entries.filterMap (fun x =>
            match x with
            | Except.ok (p, FSTree.file rd c) =>
              (match searchFileImpl m p rd c with
               | Except.error e => some ("Error searching " ++ p ++ ": " ++ PyErr.msg e)
               | Except.ok _ => none)
            | _ => none) := by
  revert h
  induction entries with
  | nil => intro h; constructor <;> simp [searchEntries]
  | cons x rest ih =>
    intro h
    have hrest : ∀ y ∈ rest, exceptIsOk y = true :=
      fun y hy => h y (List.mem_cons_of_mem x hy)
    obtain ⟨ih1, ih2⟩ := ih hrest
    cases x with
    | error e =>
      have := h (Except.error e) (List.mem_cons_self _ _)
      simp [exceptIsOk] at this
    | ok pt =>
      obtain ⟨p, t⟩ := pt
      cases t with
      | file rd c =>
        cases hsf : searchFileImpl m p rd c with
        | ok recs =>
          constructor <;>
            simp [searchEntries, hsf, ih1, ih2, List.filterMap_cons, Except.map, Except.toOption]
        | error e =>
          constructor <;>
            simp [searchEntries, hsf, ih1, ih2, List.filterMap_cons, Except.toOption]
      | dir rd rules es =>
        constructor <;> simp [searchEntries, ih1, ih2, List.filterMap_cons]
      | other =>
        constructor <;> simp [searchEntries, ih1, ih2, List.filterMap_cons]

/-- Witness for C3: a walk with one readable matching file and one unreadable
file; the returned value holds only the record of the readable file and the
stderr log holds the skip message. -/
theorem per_file_errors_logged_not_returned_witness :
    (searchEntries { pat := strBytes "hit" }
        [Except.ok ("d/a.txt", FSTree.file true (strBytes "hit\n")),
         Except.ok ("d/c.txt", FSTree.file false (strBytes "hit\n"))]).result
        = Except.ok [{ file := "d/a.txt", line_number := 1, line := "hit" }] ∧
    (searchEntries { pat := strBytes "hit" }
        [Except.ok ("d/a.txt", FSTree.file true (strBytes "hit\n")),
         Except.ok ("d/c.txt", FSTree.file false (strBytes "hit\n"))]).errlog
        = ["Error searching d/c.txt: Search error: failed to open d/c.txt"] :=
  per_file_errors_logged_not_returned { pat := strBytes "hit" }
    [Except.ok ("d/a.txt", FSTree.file true (strBytes "hit\n")),
     Except.ok ("d/c.txt", FSTree.file false (strBytes "hit\n"))]
    (by decide)

lemma searchEntries_error_of_mem (m : RegexMatcher)
    (entries : List (Except String (String × FSTree))) (e : String) :
    Except.error e ∈ entries →
    ∃ msg, (searchEntries m entries).result = Except.error (PyErr.ioError msg) := by
  induction entries with
  | nil => intro he; exact absurd he (List.not_mem_nil _)
  | cons x rest ih =>
    intro he
    cases x with
    | error e2 => exact ⟨"Walk error: " ++ e2, by simp [searchEntries]⟩
    | ok pt =>
      have he2 : Except.error e ∈ rest := by
        cases he with
        | tail _ hmem => exact hmem
      obtain ⟨msg, hmsg⟩ := ih he2
      obtain ⟨p, t⟩ := pt
      cases t with
      | file rd c =>
        cases hsf : searchFileImpl m p rd c with
        | ok recs => exact ⟨msg, by simp [searchEntries, hsf, hmsg, Except.map]⟩
        | error e3 => exact ⟨msg, by simp [searchEntries, hsf, hmsg]⟩
      | dir rd rules es => exact ⟨msg, by simp [searchEntries, hmsg]⟩
      | other => exact ⟨msg, by simp [searchEntries, hmsg]⟩

/-- C4, counterexample: an unreadable non-root subdirectory is not confined
to its subtree.  The directory holds a readable file whose line matches (as
the second conjunct shows), yet the whole search returns the walk error and
none of those matches. -/
theorem subtree_walk_error_aborts_cex :
    (RipGrep.search { pattern := "hit" } "d"
        (some (FSTree.dir true []
          [("a.txt", FSTree.file true (strBytes "hit\n")),
           ("sub", FSTree.dir false [] [])]))).result
      = Except.error (PyErr.ioError "Walk error: d/sub") ∧
    searchFileImpl { pat := strBytes "hit" } "d/a.txt" true (strBytes "hit\n")
      = Except.ok [{ file := "d/a.txt", line_number := 1, line := "hit" }] := by
  constructor <;> decide

/-- C4 (amended): any walk error, whether for the root or for a non-root
subdirectory, aborts the entire directory search with an IO error; the
matches found in the readable parts of the tree are not returned. -/
theorem walk_error_aborts_whole_search (rg : RipGrep) (path : String) (t : FSTree) (e : String)
    (hp : regexSyntaxOk rg.pattern = true) (he : Except.error e ∈ walk path t) :
    ∃ msg, (rg.search path (some t)).result = Except.error (PyErr.ioError msg) := by
  cases t with
  | file rd content => simp [walk, walkTree] at he
  | other => simp [walk, walkTree] at he
  | dir rd rules es =>
    have hmem := searchEntries_error_of_mem { pat := strBytes rg.pattern }
      (walk path (FSTree.dir rd rules es)) e he
    simpa [RipGrep.search, RegexMatcher.new, hp, searchDirectoryImpl] using hmem

/-- Witness for C4 at a concrete tree with an unreadable subdirectory. -/
theorem walk_error_aborts_whole_search_witness :
    ∃ msg, (RipGrep.search { pattern := "q" } "d"
        (some (FSTree.dir true [] [("sub", FSTree.dir false [] [])]))).result
      = Except.error (PyErr.ioError msg) :=
  walk_error_aborts_whole_search { pattern := "q" } "d"
    (FSTree.dir true [] [("sub", FSTree.dir false [] [])]) "d/sub"
    (by decide) (by simp [walk, walkTree, walkList, hiddenName, ignoredName])

/-- C6: content of ignored files never reaches the results.  First conjunct:
the concrete scenario of the claim, a directory with a matching text file and
a matching log file under a rule excluding log files, yields exactly the one
record from the text file.  Second conjunct, the general fact behind it: a
directory search is unchanged by the presence of any entry whose name is
matched by the ignore rules in force, so an ignored file contributes nothing
whatever its content. -/
theorem ignored_files_excluded :
    (RipGrep.search { pattern := "ERROR" } "d"
        (some (FSTree.dir true ["*.log"]
          [("a.txt", FSTree.file true (strBytes "foo\nERROR: bad\n")),
           ("b.log", FSTree.file true (strBytes "ERROR here\n"))]))).result
      = Except.ok [{ file := "d/a.txt", line_number := 2, line := "ERROR: bad" }] ∧
    ∀ (rg : RipGrep) (path name : String) (rules : List String) (t : FSTree)
      (es : List (String × FSTree)),
      ignoredName rules name = true →
      RipGrep.search rg path (some (FSTree.dir true rules ((name, t) :: es)))
        = RipGrep.search rg path (some (FSTree.dir true rules es)) := by
  constructor
  · decide
  · intro rg path name rules t es hi
    cases hnew : RegexMatcher.new rg.pattern with
    | error e => simp [RipGrep.search, hnew]
    | ok m =>
      simp only [RipGrep.search, hnew, searchDirectoryImpl, walk, walkTree, walkList, hi,
        Bool.or_true, if_true, List.nil_append]
      simp [searchEntries]

/-- Witness for C6: dropping the ignored log file from the directory does not
change the search outcome at all. -/
theorem ignored_files_excluded_witness :
    RipGrep.search { pattern := "ERROR" } "d"
        (some (FSTree.dir true ["*.log"] [("b.log", FSTree.file true (strBytes "ERROR here\n"))]))
      = RipGrep.search { pattern := "ERROR" } "d" (some (FSTree.dir true ["*.log"] [])) :=
  ignored_files_excluded.2 { pattern := "ERROR" } "d" "b.log" ["*.log"]
    (FSTree.file true (strBytes "ERROR here\n")) [] (by decide)

/-- C8, counterexample: searching a hidden file directly yields its match,
but searching the directory that contains only that file yields nothing,
because the walker skips hidden entries; the two searches are not identical
for every file. -/
theorem hidden_file_direct_vs_dir_cex :
    (RipGrep.search { pattern := "hit" } "d/.h"
        (some (FSTree.file true (strBytes "hit\n")))).result
      = Except.ok [{ file := "d/.h", line_number := 1, line := "hit" }] ∧
    (RipGrep.search { pattern := "hit" } "d"
        (some (FSTree.dir true [] [(".h", FSTree.file true (strBytes "hit\n"))]))).result
      = Except.ok [] := by
  constructor <;> decide

/-- C8 (amended): searching a file directly and searching a directory that
contains only that file produce identical outcomes provided the file's name
is not hidden and not matched by the directory's ignore rules, the file's
scan succeeds, and the direct target path is the walker-produced one (root
path, separator, name). -/
theorem file_eq_singleton_dir_search (rg : RipGrep) (path name : String) (rules : List String)
    (rd : Bool) (content : List Nat) (recs : List MatchRecord)
    (hp : regexSyntaxOk rg.pattern = true)
    (hh : hiddenName name = false) (hi : ignoredName rules name = false)
    (hok : searchFileImpl { pat := strBytes rg.pattern } (path ++ "/" ++ name) rd content
      = Except.ok recs) :
    RipGrep.search rg (path ++ "/" ++ name) (some (FSTree.file rd content))
      = RipGrep.search rg path (some (FSTree.dir true rules [(name, FSTree.file rd content)])) := by
  simp [RipGrep.search, RegexMatcher.new, hp, searchDirectoryImpl, walk, walkTree, walkList,
    hh, hi, hok, searchEntries, Except.map]

/-- Witness for C8 at a concrete readable one-line file. -/
theorem file_eq_singleton_dir_search_witness :
    RipGrep.search { pattern := "hit" } ("d" ++ "/" ++ "a.txt")
        (some (FSTree.file true (strBytes "hit\n")))
      = RipGrep.search { pattern := "hit" } "d"
          (some (FSTree.dir true [] [("a.txt", FSTree.file true (strBytes "hit\n"))])) :=
  file_eq_singleton_dir_search { pattern := "hit" } "d" "a.txt" [] true (strBytes "hit\n")
    [{ file := "d/a.txt", line_number := 1, line := "hit" }]
    (by decide) (by decide) (by decide) (by decide)
